import Mathlib

/-!
Verification of the request-routing and cross-origin access-control layer of a
minimal HTTP gateway (a Node.js `http.createServer` handler with a `setCors`
helper and a `sendJson` helper).

The embedding models:
* JSON values, `JSON.stringify` and `JSON.parse` (the runtime builtins the
  handler calls);
* the two origin regexes and the `startsWith` test used by `setCors`;
* the mutable `http.ServerResponse` as an explicit record threaded through the
  handler, with an event trace recording each `setHeader` / `writeHead` / `end`
  call in order, plus instrumentation recording collaborator invocations and
  `console.error` logging;
* the full request handler, parameterised by the two external collaborators
  `fetchPlans` and `generateClosingScript` (opaque functions that either return
  a JSON value or fail with an error detail).
-/

set_option autoImplicit false

/-- JSON values.  Numbers are kept as their source lexeme (the handler never
computes with them, it only passes them through). -/
inductive Json where
  | null : Json
  | bool : Bool → Json
  | num : String → Json
  | str : String → Json
  | arr : List Json → Json
  | obj : List (String × Json) → Json
deriving Repr

/-- Lower-case hexadecimal digit, as used by `JSON.stringify` for control
characters. -/
def hexDigit (n : Nat) : Char :=
  if n < 10 then Char.ofNat (48 + n) else Char.ofNat (87 + n)

/-- Escape a single character the way `JSON.stringify` escapes characters
inside string values. -/
def escapeChar (c : Char) : String :=
  if c = '"' then "\\\""
  else if c = '\\' then "\\\\"
  else if c = Char.ofNat 8 then "\\b"
  else if c = Char.ofNat 9 then "\\t"
  else if c = Char.ofNat 10 then "\\n"
  else if c = Char.ofNat 12 then "\\f"
  else if c = Char.ofNat 13 then "\\r"
  else if c.toNat < 32 then
    String.mk ['\\', 'u', '0', '0', hexDigit (c.toNat / 16), hexDigit (c.toNat % 16)]
  else String.mk [c]

/-- Quote a string the way `JSON.stringify` does. -/
def jsonQuote (s : String) : String :=
  "\"" ++ String.join (s.toList.map escapeChar) ++ "\""

mutual

/-- `JSON.stringify` on a JSON value (no replacer, no indentation). -/
def jsonStringify : Json → String
  | .null => "null"
  | .bool b => if b then "true" else "false"
  | .num s => s
  | .str s => jsonQuote s
  | .arr xs => "[" ++ stringifyArr xs ++ "]"
  | .obj fs => "\x7b" ++ stringifyObj fs ++ "\x7d"

/-- Comma-separated serialisation of array elements. -/
def stringifyArr : List Json → String
  | [] => ""
  | [x] => jsonStringify x
  | x :: y :: xs => jsonStringify x ++ "," ++ stringifyArr (y :: xs)

/-- Comma-separated serialisation of object members. -/
def stringifyObj : List (String × Json) → String
  | [] => ""
  | [(k, v)] => jsonQuote k ++ ":" ++ jsonStringify v
  | (k, v) :: m :: fs => jsonQuote k ++ ":" ++ jsonStringify v ++ "," ++ stringifyObj (m :: fs)

end

/-- JSON insignificant whitespace. -/
def isJsonWs (c : Char) : Bool :=
  c = ' ' || c = '\t' || c = '\n' || c = '\r'

/-- Drop leading JSON whitespace. -/
def skipWs : List Char → List Char
  | [] => []
  | c :: cs => if isJsonWs c then skipWs cs else c :: cs

/-- Value of a hexadecimal digit character. -/
def hexVal (c : Char) : Option Nat :=
  if '0' ≤ c ∧ c ≤ '9' then some (c.toNat - 48)
  else if 'a' ≤ c ∧ c ≤ 'f' then some (c.toNat - 87)
  else if 'A' ≤ c ∧ c ≤ 'F' then some (c.toNat - 55)
  else none

/-- Parse the remainder of a JSON string literal (the opening quote already
consumed), returning the decoded string and the unconsumed input. -/
def parseStringTail : Nat → List Char → String → Option (String × List Char)
  | 0, _, _ => none
  | _ + 1, [], _ => none
  | fuel + 1, c :: cs, acc =>
    if c = '"' then some (acc, cs)
    else if c = '\\' then
      match cs with
      | [] => none
      | e :: cs' =>
        if e = '"' then parseStringTail fuel cs' (acc.push '"')
        else if e = '\\' then parseStringTail fuel cs' (acc.push '\\')
        else if e = '/' then parseStringTail fuel cs' (acc.push '/')
        else if e = 'b' then parseStringTail fuel cs' (acc.push (Char.ofNat 8))
        else if e = 'f' then parseStringTail fuel cs' (acc.push (Char.ofNat 12))
        else if e = 'n' then parseStringTail fuel cs' (acc.push (Char.ofNat 10))
        else if e = 'r' then parseStringTail fuel cs' (acc.push (Char.ofNat 13))
        else if e = 't' then parseStringTail fuel cs' (acc.push (Char.ofNat 9))
        else if e = 'u' then
          match cs' with
          | h1 :: h2 :: h3 :: h4 :: cs'' =>
            match hexVal h1, hexVal h2, hexVal h3, hexVal h4 with
            | some a, some b, some c3, some d =>
              parseStringTail fuel cs''
                (acc.push (Char.ofNat (((a * 16 + b) * 16 + c3) * 16 + d)))
            | _, _, _, _ => none
          | _ => none
        else none
    else if c.toNat < 32 then none
    else parseStringTail fuel cs (acc.push c)

/-- Parse the exponent digits of a JSON number (after `e`/`E`). -/
def parseExpDigits (acc : List Char) (cs : List Char) : Option (String × List Char) :=
  let (sign, cs1) :=
    match cs with
    | '+' :: t => (['+'], t)
    | '-' :: t => (['-'], t)
    | _ => (([] : List Char), cs)
  match cs1.span Char.isDigit with
  | ([], _) => none
  | (ds, rest) => some (String.mk (acc ++ sign ++ ds), rest)

/-- Parse the optional exponent part of a JSON number. -/
def parseExpPart (acc : List Char) (cs : List Char) : Option (String × List Char) :=
  match cs with
  | 'e' :: t => parseExpDigits (acc ++ ['e']) t
  | 'E' :: t => parseExpDigits (acc ++ ['E']) t
  | _ => some (String.mk acc, cs)

/-- Parse the optional fraction and exponent parts of a JSON number. -/
def parseFracExp (acc : List Char) (cs : List Char) : Option (String × List Char) :=
  match cs with
  | '.' :: t =>
    (match t.span Char.isDigit with
     | ([], _) => none
     | (ds, rest) => parseExpPart (acc ++ '.' :: ds) rest)
  | _ => parseExpPart acc cs

/-- Parse a JSON number lexeme (strict JSON grammar: no leading `+`, no
superfluous leading zero, no bare `.`). -/
def parseNumber (cs : List Char) : Option (String × List Char) :=
  let (neg, cs1) :=
    match cs with
    | '-' :: t => ((['-'] : List Char), t)
    | _ => (([] : List Char), cs)
  match cs1 with
  | [] => none
  | c :: t =>
    if c = '0' then parseFracExp (neg ++ [c]) t
    else if c.isDigit then
      match cs1.span Char.isDigit with
      | (ds, rest) => parseFracExp (neg ++ ds) rest
    else none

mutual

/-- Parse one JSON value (fuel-indexed), returning it and the unconsumed
input. -/
def parseVal : Nat → List Char → Option (Json × List Char)
  | 0, _ => none
  | fuel + 1, cs =>
    match skipWs cs with
    | [] => none
    | c :: rest =>
      if c = '"' then
        match parseStringTail (rest.length + 1) rest "" with
        | some (s, rest') => some (Json.str s, rest')
        | none => none
      else if c = '[' then
        (match skipWs rest with
         | ']' :: rest' => some (Json.arr [], rest')
         | rest1 => parseArrItems fuel rest1 [])
      else if c = '{' then
        (match skipWs rest with
         | '}' :: rest' => some (Json.obj [], rest')
         | rest1 => parseObjItems fuel rest1 [])
      else if c = 't' then
        (match rest with
         | 'r' :: 'u' :: 'e' :: rest' => some (Json.bool true, rest')
         | _ => none)
      else if c = 'f' then
        (match rest with
         | 'a' :: 'l' :: 's' :: 'e' :: rest' => some (Json.bool false, rest')
         | _ => none)
      else if c = 'n' then
        (match rest with
         | 'u' :: 'l' :: 'l' :: rest' => some (Json.null, rest')
         | _ => none)
      else
        match parseNumber (c :: rest) with
        | some (s, rest') => some (Json.num s, rest')
        | none => none

/-- Parse the elements of a non-empty JSON array (opening bracket consumed). -/
def parseArrItems : Nat → List Char → List Json → Option (Json × List Char)
  | 0, _, _ => none
  | fuel + 1, cs, acc =>
    match parseVal fuel cs with
    | none => none
    | some (v, rest) =>
      match skipWs rest with
      | ',' :: rest' => parseArrItems fuel rest' (acc ++ [v])
      | ']' :: rest' => some (Json.arr (acc ++ [v]), rest')
      | _ => none

/-- Parse the members of a non-empty JSON object (opening brace consumed). -/
def parseObjItems : Nat → List Char → List (String × Json) → Option (Json × List Char)
  | 0, _, _ => none
  | fuel + 1, cs, acc =>
    match skipWs cs with
    | '"' :: rest =>
      (match parseStringTail (rest.length + 1) rest "" with
       | none => none
       | some (k, rest1) =>
         match skipWs rest1 with
         | ':' :: rest2 =>
           (match parseVal fuel rest2 with
            | none => none
            | some (v, rest3) =>
              match skipWs rest3 with
              | ',' :: rest4 => parseObjItems fuel rest4 (acc ++ [(k, v)])
              | '}' :: rest4 => some (Json.obj (acc ++ [(k, v)]), rest4)
              | _ => none)
         | _ => none)
    | _ => none

end

/-- `JSON.parse`: parse a complete JSON document; trailing content other than
whitespace is an error. -/
def jsonParse (s : String) : Option Json :=
  let cs := s.toList
  match parseVal (2 * cs.length + 4) cs with
  | some (v, rest) => if skipWs rest = [] then some v else none
  | none => none

example : jsonParse "\x7b\x7d" = some (Json.obj []) := by rfl
example : jsonParse "not-json\x7b" = none := by rfl
example : jsonParse " \x7b\"a\": [1, 2.5e-3, true, null, \"x\"]\x7d " =
    some (Json.obj [("a", Json.arr [Json.num "1", Json.num "2.5e-3",
      Json.bool true, Json.null, Json.str "x"])]) := by rfl
example : jsonParse "" = none := by rfl
example : jsonParse "\x7b\"a\":1,\x7d" = none := by rfl
example : jsonStringify (Json.obj [("error", Json.str "Not found")]) =
    "\x7b\"error\":\"Not found\"\x7d" := by rfl
example : jsonStringify (Json.obj [("status", Json.str "ok")]) =
    "\x7b\"status\":\"ok\"\x7d" := by rfl

/-! ## The origin classifier (`setCors`) -/

/-- ASCII lower-casing of one character (what both JavaScript's `i` regex flag
and `toLowerCase` do on the ASCII letters the patterns consist of). -/
def lowerChar (c : Char) : Char :=
  if 'A' ≤ c ∧ c ≤ 'Z' then Char.ofNat (c.toNat + 32) else c

/-- Lower-cased character list of a string. -/
def lowerList (s : String) : List Char :=
  s.toList.map lowerChar

/-- Lower-cased string. -/
def lowerStr (s : String) : String :=
  String.mk (lowerList s)

/-- UTF-8 byte size of one character. -/
def charUtf8Size (c : Char) : Nat :=
  if c.toNat < 128 then 1
  else if c.toNat < 2048 then 2
  else if c.toNat < 65536 then 3
  else 4

/-- `Buffer.byteLength`: the UTF-8 byte length of a string. -/
def byteLength (s : String) : Nat :=
  s.toList.foldl (fun n c => n + charUtf8Size c) 0

/-- Tail of the Sunfire origin regex: decides whether a character list matches
`([^.]+\.)*sunfirematrix\.com` exactly (both ends), on already
lower-cased input.  Each step either finishes on the literal domain or
consumes one non-empty dot-free label followed by its dot. -/
def sunfireTail : Nat → List Char → Bool
  | 0, _ => false
  | fuel + 1, cs =>
    cs = "sunfirematrix.com".toList ||
      match cs.span (fun c => c ≠ '.') with
      | (lbl, '.' :: rest) => !lbl.isEmpty && sunfireTail fuel rest
      | _ => false

/-- Whole-string match of `https:\/\/([^.]+\.)*sunfirematrix\.com` on
already lower-cased input. -/
def sunfireAnchored (l : List Char) : Bool :=
  "https://".toList.isPrefixOf l && sunfireTail (l.length + 1) (l.drop 8)

/-- `/https:\/\/([^.]+\.)*sunfirematrix\.com$/i.test origin`: the regex has a
`$` anchor but no `^`, so `test` succeeds when the pattern matches starting at
any position and running to the end of the string; the `i` flag lower-cases
the comparison. -/
def isSunfire (origin : String) : Bool :=
  let l := lowerList origin
  (List.range (l.length + 1)).any fun i => sunfireAnchored (l.drop i)

/-- `/^http:\/\/localhost(?::\d+)?$/i.test origin`: anchored at both ends,
case-insensitive, with an optional `:<digits>` port. -/
def isLocal (origin : String) : Bool :=
  let l := lowerList origin
  "http://localhost".toList.isPrefixOf l &&
    (match l.drop 16 with
     | [] => true
     | ':' :: ds => !ds.isEmpty && ds.all Char.isDigit
     | _ => false)

/-- `origin.startsWith('chrome-extension://')` (case-sensitive). -/
def isExtension (origin : String) : Bool :=
  "chrome-extension://".toList.isPrefixOf origin.toList

/-- The condition under which `setCors` echoes the origin:
`isSunfire || isLocal || isExtension`. -/
def originAllowed (origin : String) : Bool :=
  isSunfire origin || isLocal origin || isExtension origin

/-- The origin condition as the specification words it: each of the three
patterns anchored to the whole origin string.  (This differs from the code:
the code's Sunfire regex has no `^` anchor.) -/
def specOriginAllowed (origin : String) : Bool :=
  sunfireAnchored (lowerList origin) || isLocal origin || isExtension origin

example : isSunfire "https://a.b.sunfirematrix.com" = true := by decide
example : isSunfire "https://sunfirematrix.com" = true := by decide
example : isSunfire "HTTPS://SUNFIREMATRIX.COM" = true := by decide
example : isSunfire "https://evil.com" = false := by decide
example : isSunfire "https://evilsunfirematrix.com" = false := by decide
example : isSunfire "xhttps://sunfirematrix.com" = true := by decide
example : specOriginAllowed "xhttps://sunfirematrix.com" = false := by decide
example : isLocal "http://localhost" = true := by decide
example : isLocal "http://localhost:5173" = true := by decide
example : isLocal "http://localhost:" = false := by decide
example : isLocal "http://localhost9" = false := by decide
example : isExtension "chrome-extension://abc" = true := by decide

/-! ## The response object -/

/-- One observable call on the `http.ServerResponse`, in program order. -/
inductive Ev where
  | setHeader (name value : String) : Ev
  | writeHead (status : Nat) : Ev
  | endRes : Ev
deriving DecidableEq, Repr

/-- Insert a header, replacing an existing header of the same (already
lower-cased) name, as Node's `setHeader` does. -/
def upsertHeader : List (String × String) → String → String → List (String × String)
  | [], n, v => [(n, v)]
  | (k, w) :: rest, n, v =>
    if k = n then (k, v) :: rest else (k, w) :: upsertHeader rest n v

/-- The state of one `http.ServerResponse`, together with the event trace of
calls made on it, the `console.error` log, and the collaborator invocations
made while serving the request. -/
structure Res where
  headers : List (String × String)
  status : Option Nat
  body : Option String
  writeHeadCount : Nat
  endCount : Nat
  events : List Ev
  log : List String
  calls : List (String × Json)
deriving Repr

/-- A fresh response object. -/
def Res.init : Res := ⟨[], none, none, 0, 0, [], [], []⟩

/-- `res.setHeader(name, value)`.  Header names are case-insensitive; they are
stored lower-cased. -/
def Res.setHeader (r : Res) (name value : String) : Res :=
  { r with headers := upsertHeader r.headers (lowerStr name) value,
           events := r.events ++ [Ev.setHeader name value] }

/-- `res.writeHead(status, headers)`: records the status line and merges the
given headers into the ones already set. -/
def Res.writeHead (r : Res) (status : Nat) (hs : List (String × String)) : Res :=
  { r with status := some status,
           headers := hs.foldl (fun acc nv => upsertHeader acc (lowerStr nv.1) nv.2) r.headers,
           writeHeadCount := r.writeHeadCount + 1,
           events := r.events ++ [Ev.writeHead status] }

/-- `res.end()` / `res.end(body)`: terminates the response. -/
def Res.endWith (r : Res) (body : Option String) : Res :=
  { r with body := body,
           endCount := r.endCount + 1,
           events := r.events ++ [Ev.endRes] }

/-- Look up a response header by (case-insensitive) name. -/
def Res.getHeader (r : Res) (name : String) : Option String :=
  r.headers.lookup (lowerStr name)

/-- Record a collaborator invocation (instrumentation of the shallow
embedding; the source calls the collaborator directly). -/
def Res.callCollab (r : Res) (name : String) (arg : Json) : Res :=
  { r with calls := r.calls ++ [(name, arg)] }

/-- `console.error(err)`. -/
def Res.logError (r : Res) (e : String) : Res :=
  { r with log := r.log ++ [e] }

/-! ## The handler -/

/-- `sendJson(res, status, payload)`: serialise the payload, write the status
line with `Content-Type` and `Content-Length` (UTF-8 byte length, as
`Buffer.byteLength`), then write the body and end the response. -/
def sendJson (res : Res) (status : Nat) (payload : Json) : Res :=
  let body := jsonStringify payload
  (res.writeHead status
      [("Content-Type", "application/json"),
       ("Content-Length", toString (byteLength body))]).endWith (some body)

/-- `setCors(req, res)`: reflect approved origins, then set the three
unconditional CORS headers. -/
def setCors (origin : String) (res : Res) : Res :=
  let res :=
    if isSunfire origin || isLocal origin || isExtension origin then
      (res.setHeader "Access-Control-Allow-Origin" origin).setHeader "Vary" "Origin"
    else res
  ((res.setHeader "Access-Control-Allow-Methods" "GET, POST, OPTIONS").setHeader
      "Access-Control-Allow-Headers" "Content-Type, Authorization").setHeader
    "Access-Control-Max-Age" "86400"

/-- An incoming request, with its body already fully buffered (the source
accumulates `data` events and runs the rest of the handler in the `end`
callback). -/
structure Req where
  method : String
  url : String
  origin : Option String
  body : String
deriving Repr

/-- The JSON body literal `{"error":"Not found"}`. -/
def notFoundJson : Json := Json.obj [("error", Json.str "Not found")]

/-- The JSON body literal `{"error":"Invalid JSON"}`. -/
def invalidJsonJson : Json := Json.obj [("error", Json.str "Invalid JSON")]

/-- The JSON body literal `{"error":"Internal server error"}`. -/
def internalErrorJson : Json := Json.obj [("error", Json.str "Internal server error")]

/-- The gateway's request handler, parameterised by the two external
collaborators.  A collaborator either returns a JSON value (`Except.ok`) or
fails with an error detail (`Except.error`), modelling a rejected promise or
thrown exception. -/
def handle (fetchPlans generateClosingScript : Json → Except String Json)
    (req : Req) : Res :=
  let res := setCors (req.origin.getD "") Res.init
  if req.method = "OPTIONS" then
    (res.writeHead 204 []).endWith none
  else if req.method = "GET" ∧ (req.url = "/api/health" ∨ req.url = "/health") then
    (res.writeHead 200 [("Content-Type", "application/json")]).endWith
      (some (jsonStringify (Json.obj [("status", Json.str "ok")])))
  else if req.method ≠ "POST" then
    sendJson res 404 notFoundJson
  else
    match jsonParse (if req.body = "" then "\x7b\x7d" else req.body) with
    | none => sendJson res 400 invalidJsonJson
    | some payload =>
      if req.url = "/plans" ∨ req.url = "/api/plans" then
        let res := res.callCollab "fetchPlans" payload
        match fetchPlans payload with
        | .ok plans => sendJson res 200 plans
        | .error e => sendJson (res.logError e) 500 internalErrorJson
      else if req.url = "/ai-recommend" ∨ req.url = "/api/recommend" then
        let res := res.callCollab "generateClosingScript" payload
        match generateClosingScript payload with
        | .ok result => sendJson res 200 result
        | .error e => sendJson (res.logError e) 500 internalErrorJson
      else
        sendJson res 404 notFoundJson

/-- A trivial collaborator used in concrete evaluations. -/
def okCollab : Json → Except String Json := fun _ => Except.ok Json.null

/-- A failing collaborator used in concrete evaluations. -/
def failCollab : Json → Except String Json := fun _ => Except.error "upstream exploded"

example : (handle okCollab okCollab ⟨"OPTIONS", "/anything", some "https://evil.com", ""⟩).status
    = some 204 := by rfl
example : (handle okCollab okCollab ⟨"GET", "/health", none, ""⟩).body
    = some "\x7b\"status\":\"ok\"\x7d" := by rfl
example : (handle okCollab okCollab ⟨"GET", "/plans", none, ""⟩).status = some 404 := by rfl
example : (handle okCollab okCollab ⟨"POST", "/plans", none, "not-json\x7b"⟩).status
    = some 400 := by rfl
example : (handle failCollab okCollab ⟨"POST", "/plans", none, ""⟩).status = some 500 := by rfl
example : (handle failCollab okCollab ⟨"POST", "/plans", none, ""⟩).log
    = ["upstream exploded"] := by rfl
example : (handle okCollab okCollab ⟨"POST", "/plans?x=1", none, ""⟩).status = some 404 := by rfl
example : (handle okCollab okCollab ⟨"POST", "/plans", none, ""⟩).calls
    = [("fetchPlans", Json.obj [])] := by rfl

/-! ## Projection lemmas for the response operations -/

@[simp] theorem setHeader_status (r : Res) (n v : String) : (r.setHeader n v).status = r.status := rfl
@[simp] theorem setHeader_body (r : Res) (n v : String) : (r.setHeader n v).body = r.body := rfl
@[simp] theorem setHeader_whc (r : Res) (n v : String) : (r.setHeader n v).writeHeadCount = r.writeHeadCount := rfl
@[simp] theorem setHeader_endCount (r : Res) (n v : String) : (r.setHeader n v).endCount = r.endCount := rfl
@[simp] theorem setHeader_log (r : Res) (n v : String) : (r.setHeader n v).log = r.log := rfl
@[simp] theorem setHeader_calls (r : Res) (n v : String) : (r.setHeader n v).calls = r.calls := rfl
@[simp] theorem setHeader_events (r : Res) (n v : String) :
    (r.setHeader n v).events = r.events ++ [Ev.setHeader n v] := rfl
@[simp] theorem setHeader_headers (r : Res) (n v : String) :
    (r.setHeader n v).headers = upsertHeader r.headers (lowerStr n) v := rfl

@[simp] theorem writeHead_status (r : Res) (st : Nat) (hs : List (String × String)) :
    (r.writeHead st hs).status = some st := rfl
@[simp] theorem writeHead_body (r : Res) (st : Nat) (hs : List (String × String)) :
    (r.writeHead st hs).body = r.body := rfl
@[simp] theorem writeHead_whc (r : Res) (st : Nat) (hs : List (String × String)) :
    (r.writeHead st hs).writeHeadCount = r.writeHeadCount + 1 := rfl
@[simp] theorem writeHead_endCount (r : Res) (st : Nat) (hs : List (String × String)) :
    (r.writeHead st hs).endCount = r.endCount := rfl
@[simp] theorem writeHead_log (r : Res) (st : Nat) (hs : List (String × String)) :
    (r.writeHead st hs).log = r.log := rfl
@[simp] theorem writeHead_calls (r : Res) (st : Nat) (hs : List (String × String)) :
    (r.writeHead st hs).calls = r.calls := rfl
@[simp] theorem writeHead_events (r : Res) (st : Nat) (hs : List (String × String)) :
    (r.writeHead st hs).events = r.events ++ [Ev.writeHead st] := rfl
@[simp] theorem writeHead_headers (r : Res) (st : Nat) (hs : List (String × String)) :
    (r.writeHead st hs).headers =
      hs.foldl (fun acc nv => upsertHeader acc (lowerStr nv.1) nv.2) r.headers := rfl

@[simp] theorem endWith_status (r : Res) (b : Option String) : (r.endWith b).status = r.status := rfl
@[simp] theorem endWith_body (r : Res) (b : Option String) : (r.endWith b).body = b := rfl
@[simp] theorem endWith_whc (r : Res) (b : Option String) : (r.endWith b).writeHeadCount = r.writeHeadCount := rfl
@[simp] theorem endWith_endCount (r : Res) (b : Option String) : (r.endWith b).endCount = r.endCount + 1 := rfl
@[simp] theorem endWith_log (r : Res) (b : Option String) : (r.endWith b).log = r.log := rfl
@[simp] theorem endWith_calls (r : Res) (b : Option String) : (r.endWith b).calls = r.calls := rfl
@[simp] theorem endWith_events (r : Res) (b : Option String) :
    (r.endWith b).events = r.events ++ [Ev.endRes] := rfl
@[simp] theorem endWith_headers (r : Res) (b : Option String) : (r.endWith b).headers = r.headers := rfl

@[simp] theorem callCollab_status (r : Res) (n : String) (a : Json) : (r.callCollab n a).status = r.status := rfl
@[simp] theorem callCollab_body (r : Res) (n : String) (a : Json) : (r.callCollab n a).body = r.body := rfl
@[simp] theorem callCollab_whc (r : Res) (n : String) (a : Json) : (r.callCollab n a).writeHeadCount = r.writeHeadCount := rfl
@[simp] theorem callCollab_endCount (r : Res) (n : String) (a : Json) : (r.callCollab n a).endCount = r.endCount := rfl
@[simp] theorem callCollab_log (r : Res) (n : String) (a : Json) : (r.callCollab n a).log = r.log := rfl
@[simp] theorem callCollab_calls (r : Res) (n : String) (a : Json) :
    (r.callCollab n a).calls = r.calls ++ [(n, a)] := rfl
@[simp] theorem callCollab_events (r : Res) (n : String) (a : Json) : (r.callCollab n a).events = r.events := rfl
@[simp] theorem callCollab_headers (r : Res) (n : String) (a : Json) : (r.callCollab n a).headers = r.headers := rfl

@[simp] theorem logError_status (r : Res) (e : String) : (r.logError e).status = r.status := rfl
@[simp] theorem logError_body (r : Res) (e : String) : (r.logError e).body = r.body := rfl
@[simp] theorem logError_whc (r : Res) (e : String) : (r.logError e).writeHeadCount = r.writeHeadCount := rfl
@[simp] theorem logError_endCount (r : Res) (e : String) : (r.logError e).endCount = r.endCount := rfl
@[simp] theorem logError_log (r : Res) (e : String) : (r.logError e).log = r.log ++ [e] := rfl
@[simp] theorem logError_calls (r : Res) (e : String) : (r.logError e).calls = r.calls := rfl
@[simp] theorem logError_events (r : Res) (e : String) : (r.logError e).events = r.events := rfl
@[simp] theorem logError_headers (r : Res) (e : String) : (r.logError e).headers = r.headers := rfl

/-- The headers `setCors` leaves on a fresh response, lower-cased names first. -/
def corsHeaders (origin : String) : List (String × String) :=
  (if originAllowed origin then
     [("access-control-allow-origin", origin), ("vary", "Origin")]
   else []) ++
  [("access-control-allow-methods", "GET, POST, OPTIONS"),
   ("access-control-allow-headers", "Content-Type, Authorization"),
   ("access-control-max-age", "86400")]

/-- The `setHeader` events `setCors` performs, in order. -/
def corsEvents (origin : String) : List Ev :=
  (if originAllowed origin then
     [Ev.setHeader "Access-Control-Allow-Origin" origin, Ev.setHeader "Vary" "Origin"]
   else []) ++
  [Ev.setHeader "Access-Control-Allow-Methods" "GET, POST, OPTIONS",
   Ev.setHeader "Access-Control-Allow-Headers" "Content-Type, Authorization",
   Ev.setHeader "Access-Control-Max-Age" "86400"]

@[simp] theorem setCors_status (o : String) (r : Res) : (setCors o r).status = r.status := by
  unfold setCors; cases h : (isSunfire o || isLocal o || isExtension o) <;> simp [h]

@[simp] theorem setCors_body (o : String) (r : Res) : (setCors o r).body = r.body := by
  unfold setCors; cases h : (isSunfire o || isLocal o || isExtension o) <;> simp [h]

@[simp] theorem setCors_whc (o : String) (r : Res) : (setCors o r).writeHeadCount = r.writeHeadCount := by
  unfold setCors; cases h : (isSunfire o || isLocal o || isExtension o) <;> simp [h]

@[simp] theorem setCors_endCount (o : String) (r : Res) : (setCors o r).endCount = r.endCount := by
  unfold setCors; cases h : (isSunfire o || isLocal o || isExtension o) <;> simp [h]

@[simp] theorem setCors_log (o : String) (r : Res) : (setCors o r).log = r.log := by
  unfold setCors; cases h : (isSunfire o || isLocal o || isExtension o) <;> simp [h]

@[simp] theorem setCors_calls (o : String) (r : Res) : (setCors o r).calls = r.calls := by
  unfold setCors; cases h : (isSunfire o || isLocal o || isExtension o) <;> simp [h]

@[simp] theorem setCors_events (o : String) (r : Res) :
    (setCors o r).events = r.events ++ corsEvents o := by
  unfold setCors corsEvents originAllowed
  cases h : (isSunfire o || isLocal o || isExtension o) <;> simp [h]

@[simp] theorem setCors_init_headers (o : String) :
    (setCors o Res.init).headers = corsHeaders o := by
  unfold setCors corsHeaders originAllowed
  cases h : (isSunfire o || isLocal o || isExtension o) <;> simp [h, Res.init] <;> rfl

@[simp] theorem init_calls : Res.init.calls = [] := rfl
@[simp] theorem init_log : Res.init.log = [] := rfl
@[simp] theorem init_events : Res.init.events = [] := rfl
@[simp] theorem init_whc : Res.init.writeHeadCount = 0 := rfl
@[simp] theorem init_endCount : Res.init.endCount = 0 := rfl
@[simp] theorem init_body : Res.init.body = none := rfl
@[simp] theorem init_status : Res.init.status = none := rfl

@[simp] theorem stringify_notFound :
    jsonStringify notFoundJson = "\x7b\"error\":\"Not found\"\x7d" := rfl
@[simp] theorem stringify_invalid :
    jsonStringify invalidJsonJson = "\x7b\"error\":\"Invalid JSON\"\x7d" := rfl
@[simp] theorem stringify_internal :
    jsonStringify internalErrorJson = "\x7b\"error\":\"Internal server error\"\x7d" := rfl
@[simp] theorem stringify_health :
    jsonStringify (Json.obj [("status", Json.str "ok")]) = "\x7b\"status\":\"ok\"\x7d" := rfl

/-! ## Claims -/

/-- Claim C7: for every request with method `OPTIONS`, regardless of path and
regardless of whether the origin matched, the response has status 204 with an
empty body, and no further processing occurs (no collaborator call, nothing
logged, and the only response writes after the CORS headers are the status
line and the terminating `end`). -/
theorem c7_options_preflight (fp gs : Json → Except String Json) (req : Req)
    (h : req.method = "OPTIONS") :
    (handle fp gs req).status = some 204 ∧
      (handle fp gs req).body = none ∧
      (handle fp gs req).calls = [] ∧
      (handle fp gs req).log = [] ∧
      (handle fp gs req).events =
        corsEvents (req.origin.getD "") ++ [Ev.writeHead 204, Ev.endRes] := by
  simp [handle, h]

/-- Witness for C7: a concrete `OPTIONS` request to a POST route from an
unapproved origin. -/
theorem c7_options_preflight_witness :
    (handle okCollab okCollab ⟨"OPTIONS", "/plans", some "https://evil.com", ""⟩).status = some 204 ∧
      (handle okCollab okCollab ⟨"OPTIONS", "/plans", some "https://evil.com", ""⟩).body = none ∧
      (handle okCollab okCollab ⟨"OPTIONS", "/plans", some "https://evil.com", ""⟩).calls = [] ∧
      (handle okCollab okCollab ⟨"OPTIONS", "/plans", some "https://evil.com", ""⟩).log = [] ∧
      (handle okCollab okCollab ⟨"OPTIONS", "/plans", some "https://evil.com", ""⟩).events =
        corsEvents "https://evil.com" ++ [Ev.writeHead 204, Ev.endRes] :=
  c7_options_preflight okCollab okCollab ⟨"OPTIONS", "/plans", some "https://evil.com", ""⟩ rfl

/-- Claim C8: every request whose method is neither `OPTIONS` nor `POST` and
which is not a `GET` of exactly `/health` or `/api/health` gets status 404
with body `{"error":"Not found"}` (never 405). -/
theorem c8_non_post_not_found (fp gs : Json → Except String Json) (req : Req)
    (h1 : req.method ≠ "OPTIONS") (h2 : req.method ≠ "POST")
    (h3 : ¬(req.method = "GET" ∧ (req.url = "/api/health" ∨ req.url = "/health"))) :
    (handle fp gs req).status = some 404 ∧
      (handle fp gs req).body = some "\x7b\"error\":\"Not found\"\x7d" := by
  simp [handle, h1, h2, h3, sendJson]

/-- Witness for C8: `GET /plans` (wrong method for a POST-only route) returns
404, not 405. -/
theorem c8_non_post_not_found_witness :
    (handle okCollab okCollab ⟨"GET", "/plans", none, ""⟩).status = some 404 ∧
      (handle okCollab okCollab ⟨"GET", "/plans", none, ""⟩).body =
        some "\x7b\"error\":\"Not found\"\x7d" :=
  c8_non_post_not_found okCollab okCollab ⟨"GET", "/plans", none, ""⟩
    (by decide) (by decide) (by decide)

/-- Claim C9: router path matching is exact-string: every `POST` whose body
parses as JSON but whose URL (as received, query string included) is not
exactly one of the four route strings gets 404 `{"error":"Not found"}`. -/
theorem c9_post_unknown_path_not_found (fp gs : Json → Except String Json)
    (req : Req) (p : Json)
    (hm : req.method = "POST")
    (hp : jsonParse (if req.body = "" then "\x7b\x7d" else req.body) = some p)
    (h1 : req.url ≠ "/plans") (h2 : req.url ≠ "/api/plans")
    (h3 : req.url ≠ "/ai-recommend") (h4 : req.url ≠ "/api/recommend") :
    (handle fp gs req).status = some 404 ∧
      (handle fp gs req).body = some "\x7b\"error\":\"Not found\"\x7d" := by
  simp [handle, hm, hp, h1, h2, h3, h4, sendJson]

/-- Witness for C9: a path carrying a query string, `POST /plans?x=1` with an
empty (hence valid-JSON) body, is not stripped and falls through to 404. -/
theorem c9_post_unknown_path_not_found_witness :
    (handle okCollab okCollab ⟨"POST", "/plans?x=1", none, ""⟩).status = some 404 ∧
      (handle okCollab okCollab ⟨"POST", "/plans?x=1", none, ""⟩).body =
        some "\x7b\"error\":\"Not found\"\x7d" :=
  c9_post_unknown_path_not_found okCollab okCollab ⟨"POST", "/plans?x=1", none, ""⟩
    (Json.obj []) rfl rfl (by decide) (by decide) (by decide) (by decide)

/-- Claim C10: for every `POST` whose non-empty body fails JSON parsing,
neither collaborator is invoked: the 400 response is produced without any
external call. -/
theorem c10_parse_failure_no_collaborator (fp gs : Json → Except String Json)
    (req : Req)
    (hm : req.method = "POST") (hb : req.body ≠ "")
    (hp : jsonParse req.body = none) :
    (handle fp gs req).calls = [] ∧ (handle fp gs req).status = some 400 := by
  simp [handle, hm, hb, hp, sendJson]

/-- Witness for C10: `POST /plans` with body `not-json{` makes no
collaborator call. -/
theorem c10_parse_failure_no_collaborator_witness :
    (handle okCollab okCollab ⟨"POST", "/plans", none, "not-json\x7b"⟩).calls = [] ∧
      (handle okCollab okCollab ⟨"POST", "/plans", none, "not-json\x7b"⟩).status = some 400 :=
  c10_parse_failure_no_collaborator okCollab okCollab ⟨"POST", "/plans", none, "not-json\x7b"⟩
    rfl (by decide) rfl

/-- Claim C5: for every `POST` to one of the four routes whose collaborator
call fails, the response is 500 with the fixed body
`{"error":"Internal server error"}` (independent of the failure detail), and
the failure detail is logged server-side. -/
theorem c5_collaborator_failure_opaque (fp gs : Json → Except String Json)
    (req : Req) (p : Json) (e : String)
    (hm : req.method = "POST")
    (hp : jsonParse (if req.body = "" then "\x7b\x7d" else req.body) = some p)
    (hf : ((req.url = "/plans" ∨ req.url = "/api/plans") ∧ fp p = Except.error e) ∨
          ((req.url = "/ai-recommend" ∨ req.url = "/api/recommend") ∧ gs p = Except.error e)) :
    (handle fp gs req).status = some 500 ∧
      (handle fp gs req).body = some "\x7b\"error\":\"Internal server error\"\x7d" ∧
      e ∈ (handle fp gs req).log := by
  rcases hf with ⟨hu, hcall⟩ | ⟨hu, hcall⟩
  · rcases hu with hu | hu <;> simp [handle, hm, hp, hu, hcall, sendJson]
  · rcases hu with hu | hu <;> simp [handle, hm, hp, hu, hcall, sendJson]

/-- Witness for C5: a failing plan-fetch collaborator on `POST /plans` with
an empty body. -/
theorem c5_collaborator_failure_opaque_witness :
    (handle failCollab okCollab ⟨"POST", "/plans", none, ""⟩).status = some 500 ∧
      (handle failCollab okCollab ⟨"POST", "/plans", none, ""⟩).body =
        some "\x7b\"error\":\"Internal server error\"\x7d" ∧
      "upstream exploded" ∈ (handle failCollab okCollab ⟨"POST", "/plans", none, ""⟩).log :=
  c5_collaborator_failure_opaque failCollab okCollab ⟨"POST", "/plans", none, ""⟩
    (Json.obj []) "upstream exploded" rfl rfl (Or.inl ⟨Or.inl rfl, rfl⟩)

@[simp] theorem jsonParse_emptyObjText : jsonParse "\x7b\x7d" = some (Json.obj []) := rfl

/-- Claim C6: for every `POST`, the fully buffered body is parsed as JSON
(empty body replaced by the text of the empty object, as `body || '{}'`):
if parsing fails the response is 400 `{"error":"Invalid JSON"}`; an empty
body parses to the empty object and is forwarded to the matched collaborator
(the request is never answered 400 in that case). -/
theorem c6_post_body_parse (fp gs : Json → Except String Json) (req : Req)
    (hm : req.method = "POST") :
    (jsonParse (if req.body = "" then "\x7b\x7d" else req.body) = none →
       (handle fp gs req).status = some 400 ∧
         (handle fp gs req).body = some "\x7b\"error\":\"Invalid JSON\"\x7d") ∧
    (req.body = "" →
       jsonParse "\x7b\x7d" = some (Json.obj []) ∧
       ((req.url = "/plans" ∨ req.url = "/api/plans") →
          (handle fp gs req).calls = [("fetchPlans", Json.obj [])]) ∧
       ((req.url = "/ai-recommend" ∨ req.url = "/api/recommend") →
          (handle fp gs req).calls = [("generateClosingScript", Json.obj [])]) ∧
       (handle fp gs req).status ≠ some 400) := by
  constructor
  · intro hp
    simp [handle, hm, hp, sendJson]
  · intro hb
    refine ⟨rfl, ?_, ?_, ?_⟩
    · rintro (hu | hu) <;>
        · cases hcall : fp (Json.obj []) <;>
            simp [handle, hm, hb, hu, hcall, sendJson]
    · rintro (hu | hu) <;>
        · cases hcall : gs (Json.obj []) <;>
            simp [handle, hm, hb, hu, hcall, sendJson]
    · by_cases h1 : req.url = "/plans"
      · cases hcall : fp (Json.obj []) <;> simp [handle, hm, hb, h1, hcall, sendJson]
      · by_cases h2 : req.url = "/api/plans"
        · cases hcall : fp (Json.obj []) <;> simp [handle, hm, hb, h1, h2, hcall, sendJson]
        · by_cases h3 : req.url = "/ai-recommend"
          · cases hcall : gs (Json.obj []) <;>
              simp [handle, hm, hb, h1, h2, h3, hcall, sendJson]
          · by_cases h4 : req.url = "/api/recommend"
            · cases hcall : gs (Json.obj []) <;>
                simp [handle, hm, hb, h1, h2, h3, h4, hcall, sendJson]
            · simp [handle, hm, hb, h1, h2, h3, h4, sendJson]

/-- Witness for C6: `POST /plans` with an empty body. -/
theorem c6_post_body_parse_witness :
    ((jsonParse (if ("" : String) = "" then "\x7b\x7d" else "") = none →
       (handle okCollab okCollab ⟨"POST", "/plans", none, ""⟩).status = some 400 ∧
         (handle okCollab okCollab ⟨"POST", "/plans", none, ""⟩).body =
           some "\x7b\"error\":\"Invalid JSON\"\x7d") ∧
     (("" : String) = "" →
       jsonParse "\x7b\x7d" = some (Json.obj []) ∧
       ((("/plans" : String) = "/plans" ∨ ("/plans" : String) = "/api/plans") →
          (handle okCollab okCollab ⟨"POST", "/plans", none, ""⟩).calls =
            [("fetchPlans", Json.obj [])]) ∧
       ((("/plans" : String) = "/ai-recommend" ∨ ("/plans" : String) = "/api/recommend") →
          (handle okCollab okCollab ⟨"POST", "/plans", none, ""⟩).calls =
            [("generateClosingScript", Json.obj [])]) ∧
       (handle okCollab okCollab ⟨"POST", "/plans", none, ""⟩).status ≠ some 400)) :=
  c6_post_body_parse okCollab okCollab ⟨"POST", "/plans", none, ""⟩ rfl

/-- Claim C2: for every incoming request and every behaviour of the two
collaborators, the handler writes exactly one status line and terminates the
response exactly once — never zero responses and never more than one, on every
code path including JSON parse failure and collaborator failure. -/
theorem c2_exactly_one_response (fp gs : Json → Except String Json) (req : Req) :
    (handle fp gs req).writeHeadCount = 1 ∧ (handle fp gs req).endCount = 1 := by
  unfold handle
  repeat' split
  all_goals simp [sendJson]

/-- Taking the length of the left operand of an append returns it. -/
theorem takeLenAppend {α : Type} (l t : List α) : (l ++ t).take l.length = l := by
  induction l with
  | nil => rfl
  | cons a l ih => simp [ih]

/-- Every event `setCors` emits is a `setHeader`. -/
theorem corsEvents_all_setHeader (o : String) :
    ∀ e ∈ corsEvents o, ∃ n v, e = Ev.setHeader n v := by
  intro e he
  unfold corsEvents at he
  cases h : originAllowed o <;> rw [h] at he <;> simp at he
  · rcases he with rfl | rfl | rfl <;> exact ⟨_, _, rfl⟩
  · rcases he with rfl | rfl | rfl | rfl | rfl <;> exact ⟨_, _, rfl⟩

/-- Claim C4: on every request path (success, error, preflight) the events on
the response start with exactly the Classifier's `setHeader` calls — the
access-control decision plus the three unconditional headers — and only after
that prefix does any `writeHead` (status line) or `end` (response byte)
occur. -/
theorem c4_cors_before_status (fp gs : Json → Except String Json) (req : Req) :
    (handle fp gs req).events.take (corsEvents (req.origin.getD "")).length =
        corsEvents (req.origin.getD "") ∧
      (∀ e ∈ corsEvents (req.origin.getD ""), ∃ n v, e = Ev.setHeader n v) ∧
      Ev.setHeader "Access-Control-Allow-Methods" "GET, POST, OPTIONS"
          ∈ corsEvents (req.origin.getD "") ∧
      Ev.setHeader "Access-Control-Allow-Headers" "Content-Type, Authorization"
          ∈ corsEvents (req.origin.getD "") ∧
      Ev.setHeader "Access-Control-Max-Age" "86400" ∈ corsEvents (req.origin.getD "") ∧
      (∀ s : Nat, Ev.writeHead s ∉ corsEvents (req.origin.getD "")) ∧
      Ev.endRes ∉ corsEvents (req.origin.getD "") := by
  refine ⟨?_, corsEvents_all_setHeader _, ?_, ?_, ?_, ?_, ?_⟩
  · unfold handle
    repeat' split
    all_goals simp [sendJson, takeLenAppend]
  · cases h : originAllowed (req.origin.getD "") <;> simp [corsEvents, h]
  · cases h : originAllowed (req.origin.getD "") <;> simp [corsEvents, h]
  · cases h : originAllowed (req.origin.getD "") <;> simp [corsEvents, h]
  · intro s hs
    rcases corsEvents_all_setHeader _ _ hs with ⟨n, v, h⟩
    cases h
  · intro hs
    rcases corsEvents_all_setHeader _ _ hs with ⟨n, v, h⟩
    cases h

/-! ## Header lookup lemmas -/

@[simp] theorem lower_ct : lowerStr "Content-Type" = "content-type" := rfl
@[simp] theorem lower_cl : lowerStr "Content-Length" = "content-length" := rfl
@[simp] theorem lower_acao :
    lowerStr "Access-Control-Allow-Origin" = "access-control-allow-origin" := rfl
@[simp] theorem lower_vary : lowerStr "Vary" = "vary" := rfl

theorem lookup_upsert_other (l : List (String × String)) (n v m : String)
    (h : m ≠ n) : (upsertHeader l n v).lookup m = l.lookup m := by
  have hb : (m == n) = false := beq_eq_false_iff_ne.mpr h
  induction l with
  | nil => simp [upsertHeader, List.lookup, hb]
  | cons kv rest ih =>
    obtain ⟨k, w⟩ := kv
    by_cases hk : k = n
    · subst hk
      simp [upsertHeader, List.lookup, hb]
    · cases hmk : m == k <;> simp [upsertHeader, hk, List.lookup, hmk, ih]

theorem lookup_upsert_self (l : List (String × String)) (n v : String) :
    (upsertHeader l n v).lookup n = some v := by
  induction l with
  | nil => simp [upsertHeader, List.lookup]
  | cons kv rest ih =>
    obtain ⟨k, w⟩ := kv
    by_cases hk : k = n
    · subst hk
      simp [upsertHeader, List.lookup]
    · have hb : (n == k) = false := beq_eq_false_iff_ne.mpr (Ne.symm hk)
      simp [upsertHeader, hk, List.lookup, hb, ih]

theorem corsHeaders_ct (o : String) :
    (corsHeaders o).lookup "content-type" = none := by
  cases h : originAllowed o <;> simp [corsHeaders, h]

theorem corsHeaders_cl (o : String) :
    (corsHeaders o).lookup "content-length" = none := by
  cases h : originAllowed o <;> simp [corsHeaders, h]

theorem corsHeaders_acao (o : String) :
    (corsHeaders o).lookup "access-control-allow-origin" =
      (if originAllowed o then some o else none) := by
  cases h : originAllowed o <;> simp [corsHeaders, h]

theorem corsHeaders_vary (o : String) :
    (corsHeaders o).lookup "vary" =
      (if originAllowed o then some "Origin" else none) := by
  cases h : originAllowed o <;> simp [corsHeaders, h, List.lookup]

/-- `sendJson` always sets `Content-Type: application/json` and
`Content-Length` equal to the UTF-8 byte length of the serialized body. -/
theorem sendJson_content (r0 : Res) (st : Nat) (p : Json) :
    (sendJson r0 st p).getHeader "Content-Type" = some "application/json" ∧
      (sendJson r0 st p).getHeader "Content-Length" =
        some (toString (byteLength (jsonStringify p))) ∧
      (sendJson r0 st p).body = some (jsonStringify p) ∧
      (sendJson r0 st p).status = some st := by
  refine ⟨?_, ?_, rfl, rfl⟩
  · simp [sendJson, Res.getHeader, lookup_upsert_other, lookup_upsert_self]
  · simp [sendJson, Res.getHeader, lookup_upsert_self]

/-- Claim C1 counterexample: the origin `xhttps://sunfirematrix.com` matches
none of the claim's three whole-string-anchored patterns
(`specOriginAllowed` is false), yet the code echoes it with `Vary: Origin`,
because the Sunfire regex `/https:\/\/([^.]+\.)*sunfirematrix\.com$/i` has a
`$` anchor but no `^` anchor. -/
theorem c1_counterexample :
    specOriginAllowed "xhttps://sunfirematrix.com" = false ∧
      (handle okCollab okCollab
          ⟨"GET", "/health", some "xhttps://sunfirematrix.com", ""⟩).getHeader
        "Access-Control-Allow-Origin" = some "xhttps://sunfirematrix.com" ∧
      (handle okCollab okCollab
          ⟨"GET", "/health", some "xhttps://sunfirematrix.com", ""⟩).getHeader
        "Vary" = some "Origin" := by
  refine ⟨by decide, ?_, ?_⟩ <;> rfl

/-- Claim C1 (amended): the response echoes the origin (exact string, with
`Vary: Origin`) iff the Origin header value (absent treated as `""`) matches
one of: (a) `https://<zero or more labels.>sunfirematrix.com`
case-insensitively, anchored at the END of the string only (the code's regex
has `$` but no `^`, so any origin with such a suffix matches); (b)
`http://localhost(:port)?` case-insensitively, anchored at both ends; (c) the
case-sensitive literal prefix `chrome-extension://`.  On no match, neither
header is set. -/
theorem c1_origin_reflection (fp gs : Json → Except String Json) (req : Req) :
    (handle fp gs req).getHeader "Access-Control-Allow-Origin" =
      (if originAllowed (req.origin.getD "") then some (req.origin.getD "") else none) ∧
    (handle fp gs req).getHeader "Vary" =
      (if originAllowed (req.origin.getD "") then some "Origin" else none) := by
  constructor <;>
  · unfold handle
    repeat' split
    all_goals
      simp [sendJson, Res.getHeader, lookup_upsert_other,
        corsHeaders_acao, corsHeaders_vary]
    all_goals simp_all

/-- Claim C3 counterexample: the health route responds 200 (not 204) with a
body, but its `writeHead` sets only `Content-Type`; no `Content-Length`
header is set on that response. -/
theorem c3_counterexample :
    (handle okCollab okCollab ⟨"GET", "/health", none, ""⟩).status = some 200 ∧
      (handle okCollab okCollab ⟨"GET", "/health", none, ""⟩).body =
        some "\x7b\"status\":\"ok\"\x7d" ∧
      (handle okCollab okCollab ⟨"GET", "/health", none, ""⟩).getHeader
        "Content-Length" = none := by
  refine ⟨rfl, rfl, rfl⟩

/-- Claim C3 (amended): every response is in one of three shapes: the 204
preflight with no body and neither `Content-Type` nor `Content-Length`; the
health 200, which carries `Content-Type: application/json` and the body
`{"status":"ok"}` but no `Content-Length` (the runtime then transfers it
chunked); or a `sendJson` response carrying
`Content-Type: application/json` and `Content-Length` equal to the exact
UTF-8 byte length of its serialized JSON body. -/
theorem c3_content_headers (fp gs : Json → Except String Json) (req : Req) :
    ((handle fp gs req).status = some 204 ∧
       (handle fp gs req).body = none ∧
       (handle fp gs req).getHeader "Content-Type" = none ∧
       (handle fp gs req).getHeader "Content-Length" = none) ∨
    ((handle fp gs req).status = some 200 ∧
       (handle fp gs req).body = some "\x7b\"status\":\"ok\"\x7d" ∧
       (handle fp gs req).getHeader "Content-Type" = some "application/json" ∧
       (handle fp gs req).getHeader "Content-Length" = none) ∨
    (∃ b, (handle fp gs req).body = some b ∧
       (handle fp gs req).getHeader "Content-Type" = some "application/json" ∧
       (handle fp gs req).getHeader "Content-Length" = some (toString (byteLength b))) := by
  unfold handle
  repeat' split
  · refine Or.inl ⟨by simp, by simp, ?_, ?_⟩ <;>
      simp [Res.getHeader, corsHeaders_ct, corsHeaders_cl]
  · refine Or.inr (Or.inl ⟨by simp, by simp, ?_, ?_⟩)
    · simp [Res.getHeader, lookup_upsert_self]
    · simp [Res.getHeader, lookup_upsert_other, corsHeaders_cl]
  all_goals
    exact Or.inr (Or.inr ⟨_, (sendJson_content _ _ _).2.2.1,
      (sendJson_content _ _ _).1, (sendJson_content _ _ _).2.1⟩)
